import Mathlib

/-!
Shallow embedding of the HyperWizard platformer simulation core
(src/components/HyperWizard.tsx): tile map, axis-separated rectangle
versus tile collision resolution, the fixed-step player and enemy
simulation, and the dev-overlay actions.  All numeric quantities are
modelled as exact rationals.
-/

set_option maxRecDepth 40000

namespace HyperWizard

/-- Tile codes, as in the source. -/
def T_EMPTY : ℕ := 0

/-- GROUND tile code (solid). -/
def T_GROUND : ℕ := 1

/-- BLOCK tile code (solid). -/
def T_BLOCK : ℕ := 2

/-- SPIKE tile code (hurts, non-solid). -/
def T_SPIKE : ℕ := 3

/-- FLAG tile code (win portal, non-solid). -/
def T_FLAG : ℕ := 4

/-- isSolidTile from the source: GROUND and BLOCK are solid. -/
def isSolidTile (tile : ℕ) : Bool := tile == T_GROUND || tile == T_BLOCK

/-- A level: a grid of tile codes plus the tile size (32 in the game). -/
structure Level where
  tiles : List (List ℕ)
  tileSize : ℚ
deriving DecidableEq

/-- Tile lookup at (row, col); out-of-range reads yield EMPTY, matching the
clamped accesses of the source. -/
def tileNat (level : Level) (r c : ℕ) : ℕ :=
  (level.tiles.getD r []).getD c T_EMPTY

/-- The X-axis overlap of the rectangle with tile column c, as computed in
rectVsTiles: min(rectX + rectWidth, tileRight) - max(rectX, tileLeft). -/
def overlapXAt (level : Level) (rectX rectWidth : ℚ) (c : ℕ) : ℚ :=
  min (rectX + rectWidth) ((c : ℚ) * level.tileSize + level.tileSize) -
    max rectX ((c : ℚ) * level.tileSize)

/-- The Y-axis overlap of the rectangle with tile row r, as computed in
rectVsTiles: min(rectY + rectHeight, tileBottom) - max(rectY, tileTop). -/
def overlapYAt (level : Level) (rectY rectHeight : ℚ) (r : ℕ) : ℚ :=
  min (rectY + rectHeight) ((r : ℚ) * level.tileSize + level.tileSize) -
    max rectY ((r : ℚ) * level.tileSize)

/-- Tile (r, c) is solid and has positive overlap with the rectangle on both
axes, i.e. it is one of the tiles rectVsTiles reacts to. -/
def trigger (level : Level) (rectX rectY rectWidth rectHeight : ℚ) (r c : ℕ) : Prop :=
  isSolidTile (tileNat level r c) = true ∧
    0 < overlapXAt level rectX rectWidth c ∧
    0 < overlapYAt level rectY rectHeight r

instance (level : Level) (x y w h : ℚ) (r c : ℕ) :
    Decidable (trigger level x y w h r c) := by
  unfold trigger; infer_instance

/-- The inclusive index range lo..hi scanned by one axis of rectVsTiles. -/
def tileRangeN (lo : ℕ) (hi : ℤ) : List ℕ :=
  (List.range (hi + 1 - lo).toNat).map (fun i => lo + i)

/-- The (row, col) pairs scanned by rectVsTiles, clamped to the grid bounds
exactly as in the source. -/
def rectTilePairs (level : Level) (rectX rectY rectWidth rectHeight : ℚ) :
    List (ℕ × ℕ) :=
  let ts := level.tileSize
  let startTileX := (max 0 ⌊rectX / ts⌋).toNat
  let endTileX : ℤ := min (((level.tiles.headD []).length : ℤ) - 1) ⌊(rectX + rectWidth) / ts⌋
  let startTileY := (max 0 ⌊rectY / ts⌋).toNat
  let endTileY : ℤ := min ((level.tiles.length : ℤ) - 1) ⌊(rectY + rectHeight) / ts⌋
  (tileRangeN startTileY endTileY).flatMap
    (fun ty => (tileRangeN startTileX endTileX).map (fun tx => (ty, tx)))

/-- Result record of rectVsTiles. -/
structure RectCollision where
  collided : Bool
  correctionX : ℚ
  correctionY : ℚ
deriving DecidableEq

/-- The body of rectVsTiles' double loop for one scanned tile: on a solid
tile with positive overlap on both axes, set collided and write the signed
correction on the axis with the smaller overlap. -/
def collideStep (level : Level) (rectX rectY rectWidth rectHeight : ℚ)
    (acc : RectCollision) (p : ℕ × ℕ) : RectCollision :=
  let ts := level.tileSize
  if isSolidTile (tileNat level p.1 p.2) then
    let overlapX := overlapXAt level rectX rectWidth p.2
    let overlapY := overlapYAt level rectY rectHeight p.1
    if 0 < overlapX ∧ 0 < overlapY then
      if overlapX < overlapY then
        { acc with
          collided := true
          correctionX :=
            if rectX + rectWidth / 2 < (p.2 : ℚ) * ts + ts / 2 then -overlapX else overlapX }
      else
        { acc with
          collided := true
          correctionY :=
            if rectY + rectHeight / 2 < (p.1 : ℚ) * ts + ts / 2 then -overlapY else overlapY }
    else acc
  else acc

/-- rectVsTiles from the source: fold the per-tile resolution over every
scanned tile, starting from no collision and zero corrections. -/
def rectVsTiles (level : Level) (rectX rectY rectWidth rectHeight : ℚ) :
    RectCollision :=
  (rectTilePairs level rectX rectY rectWidth rectHeight).foldl
    (collideStep level rectX rectY rectWidth rectHeight) ⟨false, 0, 0⟩

/-- tileAt from the source: world-coordinate tile lookup, returning EMPTY
for any out-of-range row or column. -/
def tileAt (level : Level) (px py : ℚ) : ℕ :=
  let cols := (level.tiles.headD []).length
  let rowsCount := level.tiles.length
  let c := ⌊px / level.tileSize⌋
  let r := ⌊py / level.tileSize⌋
  if c < 0 ∨ (cols : ℤ) ≤ c ∨ r < 0 ∨ (rowsCount : ℤ) ≤ r then T_EMPTY
  else tileNat level r.toNat c.toNat

/-- Math.sign on rationals (inputs here are never NaN). -/
def jsign (q : ℚ) : ℚ := if 0 < q then 1 else if q < 0 then -1 else 0

/-- clamp from the source. -/
def clamp (value lo hi : ℚ) : ℚ :=
  if value < lo then lo else if hi < value then hi else value

/-- Player state fields, as in the source. -/
structure PlayerState where
  positionX : ℚ
  positionY : ℚ
  velocityX : ℚ
  velocityY : ℚ
  width : ℚ
  height : ℚ
  isOnGround : Bool
  canFly : Bool
deriving DecidableEq

/-- Orb state. -/
structure Orb where
  x : ℚ
  y : ℚ
  radius : ℚ
  collected : Bool
deriving DecidableEq

/-- Enemy rendering variant (no behavioural difference). -/
inductive EnemyType where
  | TRICK : EnemyType
  | HYPER : EnemyType
deriving DecidableEq

/-- Enemy state fields, as in the source. -/
structure Enemy where
  x : ℚ
  y : ℚ
  width : ℚ
  height : ℚ
  velocityX : ℚ
  velocityY : ℚ
  alive : Bool
  phase : ℚ
  type : EnemyType
deriving DecidableEq

/-- The boolean keyboard intent flags. -/
structure Inputs where
  moveLeft : Bool
  moveRight : Bool
  jump : Bool
  run : Bool
  attack : Bool
  restart : Bool
deriving DecidableEq

/-- The mutable simulation state owned by the game loop: player, camera,
terminal flags, collections, trail, and the timers stepSimulation touches. -/
structure GameState where
  player : PlayerState
  camera : ℚ × ℚ
  dead : Bool
  won : Bool
  orbs : List Orb
  enemies : List Enemy
  trail : List (ℚ × ℚ)
  flightMsgTimer : ℚ
  footstepTimer : ℚ
deriving DecidableEq

/-- Number of live enemies, as computed for the dev-overlay snapshot. -/
def aliveCount (es : List Enemy) : ℕ := (es.filter (fun e => e.alive)).length

/-- restartPlayer from the source, together with the dead/won clearing that
stepSimulation performs right after calling it: resets the player position,
velocity and ground flag, the camera, and the terminal flags, and nothing
else. -/
def applyRestartState (s : GameState) : GameState :=
  { s with
    player := { s.player with
      positionX := 64
      positionY := 64
      velocityX := 0
      velocityY := 0
      isOnGround := false }
    camera := (0, 0)
    dead := false
    won := false }

/-- The jump / flight block of stepSimulation (velocity effects only; the
gravity scaling while flying is computed by effectiveGravity below). -/
def applyJumpFlight (inputs : Inputs) (dt : ℚ) (p : PlayerState) : PlayerState :=
  if inputs.jump then
    if p.canFly then
      let p1 :=
        if p.isOnGround then
          { p with velocityY := min p.velocityY (-420), isOnGround := false }
        else p
      { p1 with velocityY := p1.velocityY + (-1650) * dt }
    else if p.isOnGround then
      { p with
        velocityY := -640 + (if inputs.run then -140 else 0)
        isOnGround := false }
    else p
  else p

/-- The gravity used after the jump/flight block: scaled by 0.25 exactly when
flight thrust is being applied (jump held and canFly). -/
def effectiveGravity (inputs : Inputs) (p : PlayerState) : ℚ :=
  if inputs.jump && p.canFly then 2200 * (1 / 4) else 2200

/-- Horizontal acceleration, jump/flight, gravity and the fall-speed clamp,
in source order. -/
def stepVelocities (inputs : Inputs) (dt : ℚ) (p : PlayerState) : PlayerState :=
  let baseSpeed : ℚ := 240 * (if inputs.run then 8 / 5 else 1)
  let targetVX := (if inputs.moveLeft then -baseSpeed else 0) +
    (if inputs.moveRight then baseSpeed else 0)
  let accel : ℚ := if p.isOnGround then 2600 else 1600
  let changingDir :=
    jsign targetVX ≠ jsign p.velocityX ∧ 0 < |targetVX| ∧ 0 < |p.velocityX|
  let accelFactor : ℚ := if changingDir then 27 / 20 else 1
  let dv := clamp (targetVX - p.velocityX)
    (-(accel * accelFactor * dt)) (accel * accelFactor * dt)
  let p1 := { p with velocityX := p.velocityX + dv }
  let p2 := applyJumpFlight inputs dt p1
  let vy := p2.velocityY + effectiveGravity inputs p2 * dt
  { p2 with velocityY := if 1200 < vy then 1200 else vy }

/-- Integrate and collide the X axis for the player, as in stepSimulation. -/
def playerMoveX (level : Level) (dt : ℚ) (p : PlayerState) : PlayerState :=
  let nextX := p.positionX + p.velocityX * dt
  let resultX := rectVsTiles level nextX p.positionY p.width p.height
  if resultX.collided = true ∧ resultX.correctionX ≠ 0 then
    { p with positionX := nextX + resultX.correctionX, velocityX := 0 }
  else
    { p with positionX := nextX }

/-- Integrate and collide the Y axis for the player: on an upward correction
the player has landed; any resolved Y collision zeroes the Y velocity; with
no resolved collision the ground flag is cleared. -/
def playerMoveY (level : Level) (dt : ℚ) (p : PlayerState) : PlayerState :=
  let nextY := p.positionY + p.velocityY * dt
  let resultY := rectVsTiles level p.positionX nextY p.width p.height
  if resultY.collided = true ∧ resultY.correctionY ≠ 0 then
    { p with
      positionY := nextY + resultY.correctionY
      isOnGround := if resultY.correctionY < 0 then true else p.isOnGround
      velocityY := 0 }
  else
    { p with positionY := nextY, isOnGround := false }

/-- Death past the world bottom and the invisible left/right/top world
boundaries, in source order. -/
def phaseWorldBounds (level : Level) (s : GameState) : GameState :=
  let worldHeight := (level.tiles.length : ℚ) * level.tileSize
  let dead1 := if worldHeight + 200 < s.player.positionY then true else s.dead
  let worldWidth := ((level.tiles.headD []).length : ℚ) * level.tileSize
  let p1 :=
    if s.player.positionX < 0 then
      { s.player with positionX := 0, velocityX := 0 }
    else s.player
  let p2 :=
    if worldWidth - p1.width < p1.positionX then
      { p1 with positionX := worldWidth - p1.width, velocityX := 0 }
    else p1
  let p3 :=
    if p2.positionY < 0 then { p2 with positionY := 0, velocityY := 0 } else p2
  { s with player := p3, dead := dead1 }

/-- Spike check at the player's feet (and one row above), in source order. -/
def phaseSpikes (level : Level) (s : GameState) : GameState :=
  let p := s.player
  let feetRow := ⌊(p.positionY + p.height - 1) / level.tileSize⌋
  let midCol := ⌊(p.positionX + p.width / 2) / level.tileSize⌋
  if 0 ≤ feetRow ∧ feetRow < (level.tiles.length : ℤ) ∧
      0 ≤ midCol ∧ midCol < ((level.tiles.headD []).length : ℤ) then
    let spike1 := tileNat level feetRow.toNat midCol.toNat == T_SPIKE
    let spikeHere :=
      if spike1 then true
      else if 0 ≤ feetRow - 1 then
        tileNat level (feetRow - 1).toNat midCol.toNat == T_SPIKE
      else false
    if spikeHere then { s with dead := true } else s
  else s

/-- Orb pickup test for a single orb. -/
def orbUpdate (px py pw ph : ℚ) (c : Orb) : Orb :=
  if c.collected then c
  else
    let dx := px + pw / 2 - c.x
    let dy := py + ph / 2 - c.y
    if dx * dx + dy * dy < (c.radius + 12) * (c.radius + 12) then
      { c with collected := true }
    else c

/-- Orb collection pass over all orbs. -/
def phaseOrbs (s : GameState) : GameState :=
  { s with
    orbs := s.orbs.map
      (orbUpdate s.player.positionX s.player.positionY s.player.width s.player.height) }

/-- Enemy per-step physics: oscillation phase, gravity with fall clamp,
X move with bounce on collision, Y move with vertical stop, and the
ledge-detection patrol flip, in source order. -/
def enemyPhysics (level : Level) (dt : ℚ) (e : Enemy) : Enemy :=
  let phase1 := e.phase + dt * 2
  let vy0 := clamp (e.velocityY + 2200 * dt) (-9999) 1200
  let exNext := e.x + e.velocityX * dt
  let exCol := rectVsTiles level exNext e.y e.width e.height
  let moveX :=
    if exCol.collided = true ∧ exCol.correctionX ≠ 0 then
      (exNext + exCol.correctionX, e.velocityX * (-1))
    else (exNext, e.velocityX)
  let eyNext := e.y + vy0 * dt
  let eyCol := rectVsTiles level moveX.1 eyNext e.width e.height
  let moveY :=
    if eyCol.collided = true ∧ eyCol.correctionY ≠ 0 then
      (eyNext + eyCol.correctionY, (0 : ℚ))
    else (eyNext, vy0)
  let aheadX := moveX.1 + (if 0 < moveX.2 then e.width + 1 else -1)
  let tileBelow := tileAt level aheadX (moveY.1 + e.height + 1)
  let vx2 := if isSolidTile tileBelow then moveX.2 else moveX.2 * (-1)
  { e with
    x := moveX.1
    y := moveY.1
    velocityX := vx2
    velocityY := moveY.2
    phase := phase1 }

/-- Player-versus-enemy interaction after the enemy has moved: on an AABB
overlap, a fast-descending player whose previous-frame bottom edge was at or
above enemyTop+6 stomps the enemy and bounces with 0.55 times the jump
impulse; any other overlap kills the player.  Returns the updated enemy, the
player Y velocity and the dead flag. -/
def enemyInteract (dt px py pw ph : ℚ) (vY : ℚ) (dead : Bool) (e : Enemy) :
    Enemy × ℚ × Bool :=
  let overlap :=
    px < e.x + e.width ∧ e.x < px + pw ∧ py < e.y + e.height ∧ e.y < py + ph
  if overlap then
    let playerBottomPrev := py - vY * dt + ph
    if 50 < vY ∧ playerBottomPrev ≤ e.y + 6 then
      ({ e with alive := false }, -640 * (11 / 20), dead)
    else (e, vY, true)
  else (e, vY, dead)

/-- One enemy's slice of the enemy loop: dead enemies are skipped, enemies
outside the horizontal viewport extended by 128 units on each side are
skipped entirely (their state does not advance and no player interaction is
tested), and the rest run physics then player interaction. -/
def enemyUpdate (level : Level) (dt camX viewportW px py pw ph : ℚ)
    (acc : ℚ × Bool) (e : Enemy) : Enemy × ℚ × Bool :=
  if e.alive = false then (e, acc.1, acc.2)
  else if e.x + e.width < camX - 128 ∨ camX + viewportW + 128 < e.x then
    (e, acc.1, acc.2)
  else enemyInteract dt px py pw ph acc.1 acc.2 (enemyPhysics level dt e)

/-- The enemy loop: folds enemyUpdate over the list, threading the player's
Y velocity and the dead flag (a stomp changes the velocity seen by later
enemies). -/
def phaseEnemies (level : Level) (dt viewportW : ℚ) (s : GameState) : GameState :=
  let p := s.player
  let res := s.enemies.foldl
    (fun (acc : List Enemy × ℚ × Bool) e =>
      let out := enemyUpdate level dt s.camera.1 viewportW
        p.positionX p.positionY p.width p.height (acc.2.1, acc.2.2) e
      (acc.1 ++ [out.1], out.2.1, out.2.2))
    ([], p.velocityY, s.dead)
  { s with
    enemies := res.1
    dead := res.2.2
    player := { p with velocityY := res.2.1 } }

/-- Flight unlock: when the player cannot fly yet and no enemy is alive,
set canFly and start the 2-second message countdown. -/
def phaseFlightUnlock (s : GameState) : GameState :=
  if s.player.canFly then s
  else if s.enemies.any (fun e => e.alive) then s
  else
    { s with
      player := { s.player with canFly := true }
      flightMsgTimer := 2 }

/-- Tick the flight message countdown. -/
def phaseTimerTick (dt : ℚ) (s : GameState) : GameState :=
  if 0 < s.flightMsgTimer then
    { s with flightMsgTimer := max 0 (s.flightMsgTimer - dt) }
  else s

/-- Win detection: the tile at the player's centre cell is the flag. -/
def phaseWin (level : Level) (s : GameState) : GameState :=
  let p := s.player
  let playerTileC := ⌊(p.positionX + p.width / 2) / level.tileSize⌋
  let playerTileR := ⌊(p.positionY + p.height / 2) / level.tileSize⌋
  if 0 ≤ playerTileR ∧ playerTileR < (level.tiles.length : ℤ) ∧
      0 ≤ playerTileC ∧ playerTileC < ((level.tiles.headD []).length : ℤ) ∧
      tileNat level playerTileR.toNat playerTileC.toNat = T_FLAG then
    { s with won := true }
  else s

/-- Camera smoothing with velocity lead, floored and clamped at zero. -/
def phaseCamera (viewportW viewportH : ℚ) (s : GameState) : GameState :=
  let p := s.player
  let topSpeed : ℚ := 240 * (8 / 5)
  let speedRatioRaw := if 0 < topSpeed then p.velocityX / topSpeed else 0
  let speedRatio := if |p.velocityX| < 20 then 0 else clamp speedRatioRaw (-1) 1
  let desiredCamX := p.positionX - viewportW / 2 + 120 * speedRatio
  let smoothedX := s.camera.1 + (desiredCamX - s.camera.1) * (3 / 20)
  { s with
    camera :=
      (((max 0 ⌊smoothedX⌋ : ℤ) : ℚ),
        ((max 0 ⌊p.positionY - viewportH / 2⌋ : ℤ) : ℚ)) }

/-- Append the player position to the trail, dropping the oldest entry past
20. -/
def phaseTrail (s : GameState) : GameState :=
  let t := s.trail ++ [(s.player.positionX, s.player.positionY)]
  { s with trail := if 20 < t.length then t.drop 1 else t }

/-- Footstep cadence timer (audio side effects are not modelled). -/
def phaseFootstep (inputs : Inputs) (dt : ℚ) (s : GameState) : GameState :=
  if s.player.isOnGround = true ∧ 40 < |s.player.velocityX| then
    let ft := s.footstepTimer + dt
    let stepInterval : ℚ := if inputs.run then 9 / 50 else 6 / 25
    { s with footstepTimer := if stepInterval ≤ ft then 0 else ft }
  else { s with footstepTimer := 0 }

/-- The body of stepSimulation past the restart and freeze checks, phase by
phase in source order. -/
def stepCore (level : Level) (viewportW viewportH : ℚ) (inputs : Inputs)
    (dt : ℚ) (s : GameState) : GameState :=
  let s1 := { s with player := stepVelocities inputs dt s.player }
  let s2 := { s1 with player := playerMoveX level dt s1.player }
  let s3 := { s2 with player := playerMoveY level dt s2.player }
  let s4 := phaseWorldBounds level s3
  let s5 := phaseSpikes level s4
  let s6 := phaseOrbs s5
  let s7 := phaseEnemies level dt viewportW s6
  let s8 := phaseFlightUnlock s7
  let s9 := phaseTimerTick dt s8
  let s10 := phaseWin level s9
  let s11 := phaseCamera viewportW viewportH s10
  let s12 := phaseTrail s11
  phaseFootstep inputs dt s12

/-- stepSimulation from the source: optional restart (which clears the
terminal flags), freeze when dead or won, otherwise the full pipeline. -/
def stepSimulation (level : Level) (viewportW viewportH : ℚ) (inputs : Inputs)
    (dt : ℚ) (s : GameState) : GameState :=
  let s1 := if inputs.restart then applyRestartState s else s
  if s1.dead || s1.won then s1
  else stepCore level viewportW viewportH inputs dt s1

/-- Dev overlay action: toggle flight. -/
def toggleFlight (s : GameState) : GameState :=
  { s with player := { s.player with canFly := !s.player.canFly } }

/-- Dev overlay action: grant flight. -/
def grantFlight (s : GameState) : GameState :=
  { s with player := { s.player with canFly := true } }

/-- Dev overlay action: revoke flight. -/
def revokeFlight (s : GameState) : GameState :=
  { s with player := { s.player with canFly := false } }

/-- Dev overlay action: kill every enemy. -/
def killAllEnemies (s : GameState) : GameState :=
  { s with enemies := s.enemies.map (fun e => { e with alive := false }) }

/-- Dev overlay action: collect every orb. -/
def collectAllOrbs (s : GameState) : GameState :=
  { s with orbs := s.orbs.map (fun c => { c with collected := true }) }

/-- Dev overlay action: request a restart by latching the restart input. -/
def devRestart (i : Inputs) : Inputs := { i with restart := true }

/-! ### Concrete levels and states used by witnesses and counterexamples -/

/-- A 2 by 2 grid with a single solid BLOCK tile at row 1, col 1. -/
def lvlSingle : Level := ⟨[[0, 0], [0, 1]], 32⟩

/-- A 2 by 2 grid with solid tiles at (0,0) and (1,1). -/
def lvlBoth : Level := ⟨[[1, 0], [0, 1]], 32⟩

/-- A 2 by 2 grid with a single solid BLOCK tile at row 1, col 1 (corner
catch scenario). -/
def lvlCorner : Level := ⟨[[0, 0], [0, 2]], 32⟩

/-- A 3 by 3 grid whose bottom row is GROUND. -/
def lvlFloor : Level := ⟨[[0, 0, 0], [0, 0, 0], [1, 1, 1]], 32⟩

/-- No keyboard intent asserted. -/
def inputsIdle : Inputs := ⟨false, false, false, false, false, false⟩

/-- Only the jump intent asserted. -/
def inputsJumpOnly : Inputs := ⟨false, false, true, false, false, false⟩

/-- A concrete session state for the dev-action counterexample. -/
def gsDev : GameState :=
  ⟨⟨64, 64, 0, 0, 20, 28, false, false⟩, (0, 0), false, false, [], [], [], 0, 0⟩

/-- A concrete stomp scenario for the C6 witness: one live enemy, and a
player landing on it this step, plus a state that already has flight. -/
def eStompW : Enemy := ⟨40, 36, 24, 28, 0, 0, true, 0, EnemyType.TRICK⟩

/-- Player falling onto eStompW. -/
def sStompW : GameState :=
  ⟨⟨44, 10, 0, 300, 20, 28, false, false⟩, (0, 0), false, false, [], [eStompW], [], 0, 0⟩

/-- Same state but with flight already unlocked. -/
def sFlyW : GameState :=
  ⟨⟨44, 10, 0, 300, 20, 28, false, true⟩, (0, 0), false, false, [], [eStompW], [], 0, 0⟩

/-- A player standing at rest on the ground strip of lvlFloor. -/
def sRest : GameState :=
  ⟨⟨64, 36, 0, 0, 20, 28, true, false⟩, (0, 0), false, false, [], [], [], 0, 0⟩

/-- Player about to catch the corner of the block of lvlCorner within one
step: per-axis displacement below the tile size. -/
def sCorner : GameState :=
  ⟨⟨20, 4, 0, 1200, 20, 28, false, false⟩, (0, 0), false, false, [], [], [], 0, 0⟩

/-- A 2 by 2 grid with a single solid tile at (1,0), for the C3 witness. -/
def lvlLedge : Level := ⟨[[0, 0], [2, 0]], 32⟩

/-- A player falling onto lvlLedge's tile with a shallow Y overlap. -/
def pLedge : PlayerState := ⟨6, 0, 0, 360, 20, 28, false, false⟩

/-! ### Generic list lemmas for the collision fold -/

lemma foldl_fix {α β : Type _} (f : α → β → α) (a : α) :
    ∀ l : List β, (∀ p ∈ l, f a p = a) → l.foldl f a = a := by
  intro l
  induction l with
  | nil => intro _; rfl
  | cons q l ih =>
    intro hyp
    have hq := hyp q (List.mem_cons_self _ _)
    simp only [List.foldl_cons, hq]
    exact ih (fun p hp => hyp p (List.mem_cons_of_mem _ hp))

lemma foldl_unique {α β : Type _} (f : α → β → α) (p₀ : β) (a r : α)
    (h₁ : f a p₀ = r) (h₂ : f r p₀ = r) :
    ∀ l : List β, p₀ ∈ l → (∀ p ∈ l, p ≠ p₀ → ∀ acc, f acc p = acc) →
      l.foldl f a = r := by
  intro l
  induction l with
  | nil => intro hmem _; cases hmem
  | cons q l ih =>
    intro hmem hother
    by_cases hq : q = p₀
    · subst hq
      simp only [List.foldl_cons, h₁]
      refine foldl_fix f r l (fun p hp => ?_)
      by_cases hp0 : p = q
      · subst hp0; exact h₂
      · exact hother p (List.mem_cons_of_mem _ hp) hp0 r
    · have ha := hother q (List.mem_cons_self _ _) hq a
      simp only [List.foldl_cons, ha]
      have hmem' : p₀ ∈ l := by
        rcases List.mem_cons.mp hmem with hqe | hml
        · exact absurd hqe.symm hq
        · exact hml
      exact ih hmem' (fun p hp hne => hother p (List.mem_cons_of_mem _ hp) hne)

lemma getD_default_of_le {α : Type _} (d : α) :
    ∀ (l : List α) (n : ℕ), l.length ≤ n → l.getD n d = d := by
  intro l
  induction l with
  | nil => intro n _; cases n <;> rfl
  | cons q l ih =>
    intro n hn
    cases n with
    | zero => simp at hn
    | succ m => exact ih m (by simpa using hn)

lemma getD_mem_of_lt {α : Type _} (d : α) :
    ∀ (l : List α) (n : ℕ), n < l.length → l.getD n d ∈ l := by
  intro l
  induction l with
  | nil => intro n hn; simp at hn
  | cons q l ih =>
    intro n hn
    cases n with
    | zero => exact List.mem_cons_self _ _
    | succ m => exact List.mem_cons_of_mem _ (ih m (by simpa using hn))

/-! ### The scan range of rectVsTiles -/

lemma mem_tileRangeN {lo : ℕ} {hi : ℤ} {z : ℕ} :
    z ∈ tileRangeN lo hi ↔ lo ≤ z ∧ (z : ℤ) ≤ hi := by
  simp only [tileRangeN, List.mem_map, List.mem_range]
  constructor
  · rintro ⟨i, hilt, rfl⟩
    omega
  · rintro ⟨h1, h2⟩
    exact ⟨z - lo, by omega, by omega⟩

lemma mem_rectTilePairs {level : Level} {x y w h : ℚ} {r c : ℕ} :
    (r, c) ∈ rectTilePairs level x y w h ↔
      ((max 0 ⌊y / level.tileSize⌋).toNat ≤ r ∧
        (r : ℤ) ≤ min ((level.tiles.length : ℤ) - 1) ⌊(y + h) / level.tileSize⌋ ∧
        (max 0 ⌊x / level.tileSize⌋).toNat ≤ c ∧
        (c : ℤ) ≤ min (((level.tiles.headD []).length : ℤ) - 1) ⌊(x + w) / level.tileSize⌋) := by
  simp only [rectTilePairs, List.mem_flatMap, List.mem_map, mem_tileRangeN, Prod.mk.injEq]
  constructor
  · rintro ⟨ty, ⟨hty1, hty2⟩, tx, ⟨htx1, htx2⟩, hre, hce⟩
    subst hre; subst hce
    exact ⟨hty1, hty2, htx1, htx2⟩
  · rintro ⟨h1, h2, h3, h4⟩
    exact ⟨r, ⟨h1, h2⟩, c, ⟨h3, h4⟩, rfl, rfl⟩

/-! ### Bounds implied by a triggering tile -/

lemma isSolid_ne_empty {t : ℕ} (hs : isSolidTile t = true) : t ≠ T_EMPTY := by
  intro he
  subst he
  simp [isSolidTile, T_EMPTY, T_GROUND, T_BLOCK] at hs

lemma trigger_row_lt {level : Level} {x y w h : ℚ} {r c : ℕ}
    (ht : trigger level x y w h r c) : r < level.tiles.length := by
  obtain ⟨hs, -, -⟩ := ht
  by_contra hge
  push_neg at hge
  have hrow : level.tiles.getD r [] = [] := getD_default_of_le _ _ _ hge
  rw [tileNat, hrow] at hs
  exact isSolid_ne_empty hs rfl

lemma trigger_col_lt {level : Level} {x y w h : ℚ} {r c : ℕ}
    (hrect : ∀ row ∈ level.tiles, row.length = (level.tiles.headD []).length)
    (ht : trigger level x y w h r c) : c < (level.tiles.headD []).length := by
  have hr := trigger_row_lt ht
  obtain ⟨hs, -, -⟩ := ht
  have hmem : level.tiles.getD r [] ∈ level.tiles := getD_mem_of_lt _ _ _ hr
  have hlen := hrect _ hmem
  by_contra hge
  push_neg at hge
  rw [← hlen] at hge
  have hcell : (level.tiles.getD r []).getD c T_EMPTY = T_EMPTY :=
    getD_default_of_le _ _ _ hge
  rw [tileNat, hcell] at hs
  exact isSolid_ne_empty hs rfl

lemma overlapX_pos_bounds {level : Level} {x w : ℚ} {c : ℕ}
    (hov : 0 < overlapXAt level x w c) :
    x < (c : ℚ) * level.tileSize + level.tileSize ∧ (c : ℚ) * level.tileSize < x + w := by
  unfold overlapXAt at hov
  have h1 := le_max_left x ((c : ℚ) * level.tileSize)
  have h2 := le_max_right x ((c : ℚ) * level.tileSize)
  have h3 := min_le_left (x + w) ((c : ℚ) * level.tileSize + level.tileSize)
  have h4 := min_le_right (x + w) ((c : ℚ) * level.tileSize + level.tileSize)
  constructor <;> linarith

lemma overlapY_pos_bounds {level : Level} {y h : ℚ} {r : ℕ}
    (hov : 0 < overlapYAt level y h r) :
    y < (r : ℚ) * level.tileSize + level.tileSize ∧ (r : ℚ) * level.tileSize < y + h := by
  unfold overlapYAt at hov
  have h1 := le_max_left y ((r : ℚ) * level.tileSize)
  have h2 := le_max_right y ((r : ℚ) * level.tileSize)
  have h3 := min_le_left (y + h) ((r : ℚ) * level.tileSize + level.tileSize)
  have h4 := min_le_right (y + h) ((r : ℚ) * level.tileSize + level.tileSize)
  constructor <;> linarith

lemma floor_le_nat_of_lt {q ts : ℚ} {n : ℕ} (hts : 0 < ts)
    (hlt : q < (n : ℚ) * ts + ts) : ⌊q / ts⌋ ≤ (n : ℤ) := by
  have hdiv : q / ts < (n : ℚ) + 1 := by
    rw [div_lt_iff₀ hts]
    nlinarith
  have : ⌊q / ts⌋ < (n : ℤ) + 1 := by
    apply Int.floor_lt.mpr
    push_cast
    exact hdiv
  omega

lemma nat_le_floor_of_lt {q ts : ℚ} {n : ℕ} (hts : 0 < ts)
    (hlt : (n : ℚ) * ts < q) : (n : ℤ) ≤ ⌊q / ts⌋ := by
  apply Int.le_floor.mpr
  push_cast
  rw [le_div_iff₀ hts]
  exact le_of_lt hlt

lemma trigger_mem_pairs {level : Level} {x y w h : ℚ} {r c : ℕ}
    (hts : 0 < level.tileSize)
    (hrect : ∀ row ∈ level.tiles, row.length = (level.tiles.headD []).length)
    (ht : trigger level x y w h r c) :
    (r, c) ∈ rectTilePairs level x y w h := by
  have hrlt := trigger_row_lt ht
  have hclt := trigger_col_lt hrect ht
  obtain ⟨hs, hox, hoy⟩ := ht
  obtain ⟨hx1, hx2⟩ := overlapX_pos_bounds hox
  obtain ⟨hy1, hy2⟩ := overlapY_pos_bounds hoy
  rw [mem_rectTilePairs]
  have hfy := floor_le_nat_of_lt hts hy1
  have hfy2 := nat_le_floor_of_lt hts hy2
  have hfx := floor_le_nat_of_lt hts hx1
  have hfx2 := nat_le_floor_of_lt hts hx2
  refine ⟨by omega, le_min (by omega) hfy2, by omega, le_min (by omega) hfx2⟩

/-! ### Evaluation of rectVsTiles with a unique triggering tile -/

lemma rectVsTiles_single (level : Level) (x y w h : ℚ) (r₀ c₀ : ℕ)
    (hts : 0 < level.tileSize)
    (hrect : ∀ row ∈ level.tiles, row.length = (level.tiles.headD []).length)
    (htrig : trigger level x y w h r₀ c₀)
    (huniq : ∀ r' < level.tiles.length, ∀ c' < (level.tiles.headD []).length,
      trigger level x y w h r' c' → r' = r₀ ∧ c' = c₀) :
    rectVsTiles level x y w h =
      collideStep level x y w h ⟨false, 0, 0⟩ (r₀, c₀) := by
  unfold rectVsTiles
  obtain ⟨hs, hox, hoy⟩ := htrig
  refine foldl_unique _ (r₀, c₀) _ _ rfl ?_ _
    (trigger_mem_pairs hts hrect ⟨hs, hox, hoy⟩) ?_
  · by_cases hlt : overlapXAt level x w c₀ < overlapYAt level y h r₀
    · simp [collideStep, hs, hox, hoy, hlt]
    · simp [collideStep, hs, hox, hoy, hlt]
  · rintro ⟨r, c⟩ hp hne acc
    by_cases hs2 : isSolidTile (tileNat level r c) = true
    · by_cases hov2 : 0 < overlapXAt level x w c ∧ 0 < overlapYAt level y h r
      · exfalso
        have ht2 : trigger level x y w h r c := ⟨hs2, hov2.1, hov2.2⟩
        have heq := huniq r (trigger_row_lt ht2) c (trigger_col_lt hrect ht2) ht2
        exact hne (by rw [heq.1, heq.2])
      · simp only [collideStep, hs2, if_true]
        rw [if_neg]
        exact hov2
    · simp [collideStep, hs2]

lemma collideStep_no_trigger {level : Level} {x y w h : ℚ} {r c : ℕ}
    (hnt : ¬ trigger level x y w h r c) (acc : RectCollision) :
    collideStep level x y w h acc (r, c) = acc := by
  by_cases hs2 : isSolidTile (tileNat level r c) = true
  · simp only [collideStep, hs2, if_true]
    rw [if_neg]
    intro hov
    exact hnt ⟨hs2, hov.1, hov.2⟩
  · simp [collideStep, hs2]

/-! ### C1 -/

/-- C1: for a rectangle that overlaps exactly one solid tile, rectVsTiles
reports collided and writes, on the axis with the strictly smaller overlap,
a correction of that overlap magnitude, negative exactly when the
rectangle's centre is on the lesser-coordinate side of the tile's centre,
leaving the other axis's correction zero. -/
theorem rectVsTiles_unique_overlap_correction
    (level : Level) (x y w h : ℚ) (r₀ c₀ : ℕ)
    (hts : 0 < level.tileSize)
    (hrect : ∀ row ∈ level.tiles, row.length = (level.tiles.headD []).length)
    (htrig : trigger level x y w h r₀ c₀)
    (huniq : ∀ r' < level.tiles.length, ∀ c' < (level.tiles.headD []).length,
      trigger level x y w h r' c' → r' = r₀ ∧ c' = c₀) :
    (rectVsTiles level x y w h).collided = true ∧
    (overlapXAt level x w c₀ < overlapYAt level y h r₀ →
      (rectVsTiles level x y w h).correctionX =
        (if x + w / 2 < (c₀ : ℚ) * level.tileSize + level.tileSize / 2
          then -overlapXAt level x w c₀ else overlapXAt level x w c₀) ∧
      (rectVsTiles level x y w h).correctionY = 0) ∧
    (overlapYAt level y h r₀ < overlapXAt level x w c₀ →
      (rectVsTiles level x y w h).correctionY =
        (if y + h / 2 < (r₀ : ℚ) * level.tileSize + level.tileSize / 2
          then -overlapYAt level y h r₀ else overlapYAt level y h r₀) ∧
      (rectVsTiles level x y w h).correctionX = 0) := by
  have hev := rectVsTiles_single level x y w h r₀ c₀ hts hrect htrig huniq
  obtain ⟨hs, hox, hoy⟩ := htrig
  rw [hev]
  by_cases hlt : overlapXAt level x w c₀ < overlapYAt level y h r₀
  · refine ⟨?_, fun _ => ⟨?_, ?_⟩, fun hgt => absurd hlt (not_lt.mpr (le_of_lt hgt))⟩ <;>
      simp [collideStep, hs, hox, hoy, hlt]
  · refine ⟨?_, fun hlt2 => absurd hlt2 hlt, fun _ => ⟨?_, ?_⟩⟩ <;>
      simp [collideStep, hs, hox, hoy, hlt]

/-- Witness for C1 on a concrete grid: the rectangle (26,20,20,28) overlaps
only the solid tile (1,1) of lvlSingle with X overlap 14 and Y overlap 16. -/
theorem rectVsTiles_unique_overlap_correction_witness :
    (0 : ℚ) < lvlSingle.tileSize ∧
    trigger lvlSingle 26 20 20 28 1 1 ∧
    overlapXAt lvlSingle 26 20 1 < overlapYAt lvlSingle 20 28 1 ∧
    (rectVsTiles lvlSingle 26 20 20 28).collided = true ∧
    (rectVsTiles lvlSingle 26 20 20 28).correctionX = -14 ∧
    (rectVsTiles lvlSingle 26 20 20 28).correctionY = 0 := by
  have main := rectVsTiles_unique_overlap_correction lvlSingle 26 20 20 28 1 1
    (by with_unfolding_all decide) (by decide) (by with_unfolding_all decide)
    (by with_unfolding_all decide)
  have hlt : overlapXAt lvlSingle 26 20 1 < overlapYAt lvlSingle 20 28 1 := by
    with_unfolding_all decide
  have hval :
      (if (26 : ℚ) + 20 / 2 < ((1 : ℕ) : ℚ) * lvlSingle.tileSize + lvlSingle.tileSize / 2
        then -overlapXAt lvlSingle 26 20 1 else overlapXAt lvlSingle 26 20 1) = -14 := by
    with_unfolding_all decide
  exact ⟨by with_unfolding_all decide, by with_unfolding_all decide, hlt, main.1,
    (main.2.1 hlt).1.trans hval, (main.2.1 hlt).2⟩

/-! ### C2 -/

/-- C2 counterexample: with solid tiles at (0,0) and (1,1) of lvlBoth, the
rectangle (30,26,20,8) gets a nonzero correction on both axes in a single
rectVsTiles call. -/
theorem rectVsTiles_both_axes_counterexample :
    (rectVsTiles lvlBoth 30 26 20 8).correctionX ≠ 0 ∧
    (rectVsTiles lvlBoth 30 26 20 8).correctionY ≠ 0 := by
  with_unfolding_all decide

/-- C2 amended: each scanned tile updates only one axis, so when at most one
solid tile overlaps the rectangle at least one of the returned corrections
is zero; with several overlapping solid tiles both can be nonzero. -/
theorem rectVsTiles_at_most_one_tile_single_axis
    (level : Level) (x y w h : ℚ) (r₀ c₀ : ℕ)
    (hts : 0 < level.tileSize)
    (hrect : ∀ row ∈ level.tiles, row.length = (level.tiles.headD []).length)
    (huniq : ∀ r' < level.tiles.length, ∀ c' < (level.tiles.headD []).length,
      trigger level x y w h r' c' → r' = r₀ ∧ c' = c₀) :
    (rectVsTiles level x y w h).correctionX = 0 ∨
    (rectVsTiles level x y w h).correctionY = 0 := by
  by_cases htrig : trigger level x y w h r₀ c₀
  · have hev := rectVsTiles_single level x y w h r₀ c₀ hts hrect htrig huniq
    obtain ⟨hs, hox, hoy⟩ := htrig
    rw [hev]
    by_cases hlt : overlapXAt level x w c₀ < overlapYAt level y h r₀
    · right; simp [collideStep, hs, hox, hoy, hlt]
    · left; simp [collideStep, hs, hox, hoy, hlt]
  · left
    unfold rectVsTiles
    rw [foldl_fix]
    rintro ⟨r, c⟩ hp
    apply collideStep_no_trigger
    intro ht2
    have heq := huniq r (trigger_row_lt ht2) c (trigger_col_lt hrect ht2) ht2
    rw [heq.1, heq.2] at ht2
    exact htrig ht2

/-- Witness for the amended C2 at a concrete single-tile overlap. -/
theorem rectVsTiles_at_most_one_tile_single_axis_witness :
    (rectVsTiles lvlSingle 26 20 20 28).correctionX = 0 ∨
    (rectVsTiles lvlSingle 26 20 20 28).correctionY = 0 :=
  rectVsTiles_at_most_one_tile_single_axis lvlSingle 26 20 20 28 1 1
    (by with_unfolding_all decide) (by decide) (by with_unfolding_all decide)

/-! ### C7 -/

/-- C7: tileAt returns EMPTY for any out-of-bounds tile coordinate, and
every (row, col) pair scanned by rectVsTiles is within the grid bounds for
any input rectangle. -/
theorem tile_queries_bounds_checked :
    (∀ (level : Level) (px py : ℚ),
      (⌊px / level.tileSize⌋ < 0 ∨
        ((level.tiles.headD []).length : ℤ) ≤ ⌊px / level.tileSize⌋ ∨
        ⌊py / level.tileSize⌋ < 0 ∨
        (level.tiles.length : ℤ) ≤ ⌊py / level.tileSize⌋) →
      tileAt level px py = T_EMPTY) ∧
    (∀ (level : Level) (x y w h : ℚ) (p : ℕ × ℕ),
      p ∈ rectTilePairs level x y w h →
      p.1 < level.tiles.length ∧ p.2 < (level.tiles.headD []).length) := by
  constructor
  · intro level px py hoob
    simp only [tileAt]
    rw [if_pos hoob]
  · rintro level x y w h ⟨r, c⟩ hp
    rw [mem_rectTilePairs] at hp
    obtain ⟨h1, h2, h3, h4⟩ := hp
    have h2m := le_trans h2 (min_le_left _ _)
    have h4m := le_trans h4 (min_le_left _ _)
    constructor <;> omega

/-- Witness for C7: an out-of-bounds lookup on a concrete grid returns
EMPTY, and a concrete scanned pair is in bounds. -/
theorem tile_queries_bounds_checked_witness :
    tileAt lvlSingle (-5) 0 = T_EMPTY ∧
    ((1, 1) ∈ rectTilePairs lvlSingle 26 20 20 28 ∧
      (1 < lvlSingle.tiles.length ∧ 1 < (lvlSingle.tiles.headD []).length)) := by
  have h1 := tile_queries_bounds_checked.1 lvlSingle (-5) 0
    (Or.inl (by with_unfolding_all decide))
  have hmem : ((1 : ℕ), (1 : ℕ)) ∈ rectTilePairs lvlSingle 26 20 20 28 := by
    with_unfolding_all decide
  have h2 := tile_queries_bounds_checked.2 lvlSingle 26 20 20 28 (1, 1) hmem
  exact ⟨h1, hmem, h2⟩

/-! ### C9 -/

/-- C9 counterexample: toggleFlight is not idempotent; applying it twice
differs from applying it once. -/
theorem toggleFlight_not_idempotent_counterexample :
    toggleFlight (toggleFlight gsDev) ≠ toggleFlight gsDev := by
  decide

/-- C9 amended: grantFlight, revokeFlight, killAllEnemies, collectAllOrbs
and the restart request are idempotent; toggleFlight is instead an
involution (applying it twice restores the original state). -/
theorem dev_actions_idempotent_except_toggle :
    (∀ s : GameState, grantFlight (grantFlight s) = grantFlight s) ∧
    (∀ s : GameState, revokeFlight (revokeFlight s) = revokeFlight s) ∧
    (∀ s : GameState, killAllEnemies (killAllEnemies s) = killAllEnemies s) ∧
    (∀ s : GameState, collectAllOrbs (collectAllOrbs s) = collectAllOrbs s) ∧
    (∀ i : Inputs, devRestart (devRestart i) = devRestart i) ∧
    (∀ s : GameState, toggleFlight (toggleFlight s) = s) := by
  refine ⟨fun s => rfl, fun s => rfl, fun s => ?_, fun s => ?_, fun i => rfl, fun s => ?_⟩
  · simp [killAllEnemies, List.map_map, Function.comp]
  · simp [collectAllOrbs, List.map_map, Function.comp]
  · simp [toggleFlight, Bool.not_not]

/-! ### C10 -/

/-- C10: a step with restart asserted performs the reset and then proceeds
with the freshly reset state; the reset changes exactly the player position
(to 64,64), velocity, ground flag, camera (to 0,0) and the terminal flags,
and leaves the orbs, enemies, flight capability, trail, message timer,
footstep timer and player size unchanged. -/
theorem restart_resets_only_player_camera_flags
    (level : Level) (viewportW viewportH : ℚ) (inputs : Inputs) (dt : ℚ)
    (s : GameState) (hres : inputs.restart = true) :
    stepSimulation level viewportW viewportH inputs dt s =
      stepCore level viewportW viewportH inputs dt (applyRestartState s) ∧
    (applyRestartState s).player.positionX = 64 ∧
    (applyRestartState s).player.positionY = 64 ∧
    (applyRestartState s).player.velocityX = 0 ∧
    (applyRestartState s).player.velocityY = 0 ∧
    (applyRestartState s).player.isOnGround = false ∧
    (applyRestartState s).camera = (0, 0) ∧
    (applyRestartState s).dead = false ∧
    (applyRestartState s).won = false ∧
    (applyRestartState s).orbs = s.orbs ∧
    (applyRestartState s).enemies = s.enemies ∧
    (applyRestartState s).player.canFly = s.player.canFly ∧
    (applyRestartState s).trail = s.trail ∧
    (applyRestartState s).flightMsgTimer = s.flightMsgTimer ∧
    (applyRestartState s).footstepTimer = s.footstepTimer ∧
    (applyRestartState s).player.width = s.player.width ∧
    (applyRestartState s).player.height = s.player.height := by
  refine ⟨?_, rfl, rfl, rfl, rfl, rfl, rfl, rfl, rfl, rfl, rfl, rfl, rfl, rfl, rfl, rfl, rfl⟩
  simp [stepSimulation, hres, applyRestartState]

/-- Witness for C10 at a concrete state with restart pressed. -/
theorem restart_resets_only_player_camera_flags_witness :
    stepSimulation lvlFloor 800 600 (devRestart inputsIdle) (1 / 60) gsDev =
      stepCore lvlFloor 800 600 (devRestart inputsIdle) (1 / 60) (applyRestartState gsDev) ∧
    (applyRestartState gsDev).player.positionX = 64 ∧
    (applyRestartState gsDev).camera = (0, 0) ∧
    (applyRestartState gsDev).enemies = gsDev.enemies := by
  have main := restart_resets_only_player_camera_flags lvlFloor 800 600
    (devRestart inputsIdle) (1 / 60) gsDev rfl
  exact ⟨main.1, main.2.1, main.2.2.2.2.2.2.1, main.2.2.2.2.2.2.2.2.2.2.1⟩

/-! ### C8 -/

/-- C8: a live enemy lying entirely outside the horizontal viewport extended
by 128 units on each side is skipped by the enemy loop: its state does not
advance at all, and no player-interaction test runs against it (the threaded
player velocity and dead flag come back unchanged). -/
theorem offscreen_enemy_frozen
    (level : Level) (dt camX viewportW px py pw ph : ℚ)
    (vY : ℚ) (dead : Bool) (e : Enemy)
    (halive : e.alive = true)
    (hoff : e.x + e.width < camX - 128 ∨ camX + viewportW + 128 < e.x) :
    enemyUpdate level dt camX viewportW px py pw ph (vY, dead) e = (e, vY, dead) := by
  simp [enemyUpdate, halive, hoff]

/-- Witness for C8: a live enemy far to the right of the viewport is
untouched by the enemy loop. -/
theorem offscreen_enemy_frozen_witness :
    enemyUpdate lvlFloor (1 / 60) 0 800 64 36 20 28 (0, false)
      ⟨5000, 36, 24, 28, 70, 0, true, 0, EnemyType.TRICK⟩ =
      (⟨5000, 36, 24, 28, 70, 0, true, 0, EnemyType.TRICK⟩, 0, false) :=
  offscreen_enemy_frozen lvlFloor (1 / 60) 0 800 64 36 20 28 0 false
    ⟨5000, 36, 24, 28, 70, 0, true, 0, EnemyType.TRICK⟩ rfl
    (Or.inr (by with_unfolding_all decide))

/-! ### C5 -/

/-- C5: when the player's rectangle overlaps a live on-screen enemy after
the enemy's movement phase, the enemy loop either stomps (player moving
down faster than 50 with previous-frame bottom edge at or above the enemy
top plus 6: enemy dies and the player's Y velocity becomes 0.55 times the
jump impulse, exactly -352) or kills the player (dead becomes true). -/
theorem enemy_overlap_stomp_or_death
    (level : Level) (dt camX viewportW px py pw ph : ℚ)
    (vY : ℚ) (dead : Bool) (e : Enemy)
    (halive : e.alive = true)
    (hon : ¬ (e.x + e.width < camX - 128 ∨ camX + viewportW + 128 < e.x))
    (hov : px < (enemyPhysics level dt e).x + (enemyPhysics level dt e).width ∧
      (enemyPhysics level dt e).x < px + pw ∧
      py < (enemyPhysics level dt e).y + (enemyPhysics level dt e).height ∧
      (enemyPhysics level dt e).y < py + ph) :
    (50 < vY ∧ py - vY * dt + ph ≤ (enemyPhysics level dt e).y + 6 →
      (enemyUpdate level dt camX viewportW px py pw ph (vY, dead) e).1.alive = false ∧
      (enemyUpdate level dt camX viewportW px py pw ph (vY, dead) e).2.1 = -352) ∧
    (¬ (50 < vY ∧ py - vY * dt + ph ≤ (enemyPhysics level dt e).y + 6) →
      (enemyUpdate level dt camX viewportW px py pw ph (vY, dead) e).2.2 = true) := by
  have hwh : (enemyPhysics level dt e).width = e.width ∧
      (enemyPhysics level dt e).height = e.height := ⟨rfl, rfl⟩
  constructor
  · intro hstomp
    simp [enemyUpdate, halive, hon, enemyInteract, hov, hstomp]
    norm_num
  · intro hnst
    simp [enemyUpdate, halive, hon, enemyInteract, hov, hnst]

/-- Witness for C5: a concrete falling player stomping a concrete enemy,
and the same overlap without downward speed killing the player. -/
theorem enemy_overlap_stomp_or_death_witness :
    ((enemyUpdate lvlFloor (1 / 60) 0 800 44 (281 / 18) 20 28 (1010 / 3, false)
        ⟨40, 36, 24, 28, 0, 0, true, 0, EnemyType.TRICK⟩).1.alive = false ∧
      (enemyUpdate lvlFloor (1 / 60) 0 800 44 (281 / 18) 20 28 (1010 / 3, false)
        ⟨40, 36, 24, 28, 0, 0, true, 0, EnemyType.TRICK⟩).2.1 = -352) ∧
    (enemyUpdate lvlFloor (1 / 60) 0 800 44 40 20 28 (0, false)
      ⟨40, 36, 24, 28, 0, 0, true, 0, EnemyType.TRICK⟩).2.2 = true := by
  constructor
  · exact (enemy_overlap_stomp_or_death lvlFloor (1 / 60) 0 800 44 (281 / 18) 20 28
      (1010 / 3) false ⟨40, 36, 24, 28, 0, 0, true, 0, EnemyType.TRICK⟩ rfl
      (by with_unfolding_all decide) (by with_unfolding_all decide)).1
      (by with_unfolding_all decide)
  · exact (enemy_overlap_stomp_or_death lvlFloor (1 / 60) 0 800 44 40 20 28
      0 false ⟨40, 36, 24, 28, 0, 0, true, 0, EnemyType.TRICK⟩ rfl
      (by with_unfolding_all decide) (by with_unfolding_all decide)).2
      (by with_unfolding_all decide)

/-! ### Per-phase preservation lemmas -/

lemma applyJumpFlight_canFly (inputs : Inputs) (dt : ℚ) (p : PlayerState) :
    (applyJumpFlight inputs dt p).canFly = p.canFly := by
  simp only [applyJumpFlight]
  split_ifs <;> rfl

lemma stepVelocities_canFly (inputs : Inputs) (dt : ℚ) (p : PlayerState) :
    (stepVelocities inputs dt p).canFly = p.canFly := by
  simp only [stepVelocities, applyJumpFlight_canFly]

lemma playerMoveX_canFly (level : Level) (dt : ℚ) (p : PlayerState) :
    (playerMoveX level dt p).canFly = p.canFly := by
  simp only [playerMoveX]
  split_ifs <;> rfl

lemma playerMoveY_canFly (level : Level) (dt : ℚ) (p : PlayerState) :
    (playerMoveY level dt p).canFly = p.canFly := by
  simp only [playerMoveY]
  split_ifs <;> rfl

lemma phaseWorldBounds_canFly (level : Level) (s : GameState) :
    (phaseWorldBounds level s).player.canFly = s.player.canFly := by
  simp only [phaseWorldBounds]
  split_ifs <;> rfl

lemma phaseWorldBounds_enemies (level : Level) (s : GameState) :
    (phaseWorldBounds level s).enemies = s.enemies := rfl

lemma phaseSpikes_player (level : Level) (s : GameState) :
    (phaseSpikes level s).player = s.player := by
  simp only [phaseSpikes]
  split_ifs <;> rfl

lemma phaseSpikes_enemies (level : Level) (s : GameState) :
    (phaseSpikes level s).enemies = s.enemies := by
  simp only [phaseSpikes]
  split_ifs <;> rfl

lemma phaseOrbs_player (s : GameState) : (phaseOrbs s).player = s.player := rfl

lemma phaseOrbs_enemies (s : GameState) : (phaseOrbs s).enemies = s.enemies := rfl

lemma phaseEnemies_canFly (level : Level) (dt viewportW : ℚ) (s : GameState) :
    (phaseEnemies level dt viewportW s).player.canFly = s.player.canFly := rfl

lemma phaseFlightUnlock_id_of_canFly (s : GameState) (h : s.player.canFly = true) :
    phaseFlightUnlock s = s := by
  simp [phaseFlightUnlock, h]

lemma phaseFlightUnlock_enemies (s : GameState) :
    (phaseFlightUnlock s).enemies = s.enemies := by
  simp only [phaseFlightUnlock]
  split_ifs <;> rfl

lemma phaseFlightUnlock_fires (s : GameState) (h1 : s.player.canFly = false)
    (h2 : s.enemies.any (fun e => e.alive) = false) :
    phaseFlightUnlock s =
      { s with player := { s.player with canFly := true }, flightMsgTimer := 2 } := by
  simp [phaseFlightUnlock, h1, h2]

lemma phaseTimerTick_player (dt : ℚ) (s : GameState) :
    (phaseTimerTick dt s).player = s.player := by
  simp only [phaseTimerTick]
  split_ifs <;> rfl

lemma phaseTimerTick_enemies (dt : ℚ) (s : GameState) :
    (phaseTimerTick dt s).enemies = s.enemies := by
  simp only [phaseTimerTick]
  split_ifs <;> rfl

lemma phaseTimerTick_timer_of_pos (dt : ℚ) (s : GameState) (h : 0 < s.flightMsgTimer) :
    (phaseTimerTick dt s).flightMsgTimer = max 0 (s.flightMsgTimer - dt) := by
  simp [phaseTimerTick, h]

lemma phaseWin_player (level : Level) (s : GameState) :
    (phaseWin level s).player = s.player := by
  simp only [phaseWin]
  split_ifs <;> rfl

lemma phaseWin_enemies (level : Level) (s : GameState) :
    (phaseWin level s).enemies = s.enemies := by
  simp only [phaseWin]
  split_ifs <;> rfl

lemma phaseWin_timer (level : Level) (s : GameState) :
    (phaseWin level s).flightMsgTimer = s.flightMsgTimer := by
  simp only [phaseWin]
  split_ifs <;> rfl

lemma phaseCamera_player (vw vh : ℚ) (s : GameState) :
    (phaseCamera vw vh s).player = s.player := rfl

lemma phaseCamera_enemies (vw vh : ℚ) (s : GameState) :
    (phaseCamera vw vh s).enemies = s.enemies := rfl

lemma phaseCamera_timer (vw vh : ℚ) (s : GameState) :
    (phaseCamera vw vh s).flightMsgTimer = s.flightMsgTimer := rfl

lemma phaseTrail_player (s : GameState) : (phaseTrail s).player = s.player := rfl

lemma phaseTrail_enemies (s : GameState) : (phaseTrail s).enemies = s.enemies := rfl

lemma phaseTrail_timer (s : GameState) :
    (phaseTrail s).flightMsgTimer = s.flightMsgTimer := rfl

lemma phaseFootstep_player (inputs : Inputs) (dt : ℚ) (s : GameState) :
    (phaseFootstep inputs dt s).player = s.player := by
  simp only [phaseFootstep]
  split_ifs <;> rfl

lemma phaseFootstep_enemies (inputs : Inputs) (dt : ℚ) (s : GameState) :
    (phaseFootstep inputs dt s).enemies = s.enemies := by
  simp only [phaseFootstep]
  split_ifs <;> rfl

lemma phaseFootstep_timer (inputs : Inputs) (dt : ℚ) (s : GameState) :
    (phaseFootstep inputs dt s).flightMsgTimer = s.flightMsgTimer := by
  simp only [phaseFootstep]
  split_ifs <;> rfl

lemma aliveCount_eq_zero_iff {es : List Enemy} :
    aliveCount es = 0 ↔ es.any (fun e => e.alive) = false := by
  induction es with
  | nil => simp [aliveCount]
  | cons e es ih =>
    by_cases he : e.alive = true <;>
      simp [aliveCount, List.filter, he] at ih ⊢

/-- stepCore written as the explicit phase pipeline. -/
lemma stepCore_decompose (level : Level) (vw vh : ℚ) (inputs : Inputs) (dt : ℚ)
    (s : GameState) :
    stepCore level vw vh inputs dt s =
      phaseFootstep inputs dt (phaseTrail (phaseCamera vw vh (phaseWin level
        (phaseTimerTick dt (phaseFlightUnlock (phaseEnemies level dt vw (phaseOrbs
          (phaseSpikes level (phaseWorldBounds level
            { s with player := playerMoveY level dt (playerMoveX level dt
                (stepVelocities inputs dt s.player)) }))))))))) := rfl

lemma stepCore_enemies (level : Level) (vw vh : ℚ) (inputs : Inputs) (dt : ℚ)
    (s : GameState) :
    (stepCore level vw vh inputs dt s).enemies =
      (phaseEnemies level dt vw (phaseOrbs (phaseSpikes level (phaseWorldBounds level
        { s with player := playerMoveY level dt (playerMoveX level dt
            (stepVelocities inputs dt s.player)) })))).enemies := by
  rw [stepCore_decompose]
  simp only [phaseFootstep_enemies, phaseTrail_enemies, phaseCamera_enemies,
    phaseWin_enemies, phaseTimerTick_enemies, phaseFlightUnlock_enemies]

lemma stepCore_canFly_of_true (level : Level) (vw vh : ℚ) (inputs : Inputs)
    (dt : ℚ) (s : GameState) (h : s.player.canFly = true) :
    (stepCore level vw vh inputs dt s).player.canFly = true := by
  rw [stepCore_decompose]
  have hu : (phaseEnemies level dt vw (phaseOrbs (phaseSpikes level (phaseWorldBounds level
      { s with player := playerMoveY level dt (playerMoveX level dt
          (stepVelocities inputs dt s.player)) })))).player.canFly = true := by
    simp only [phaseEnemies_canFly, phaseOrbs_player, phaseSpikes_player,
      phaseWorldBounds_canFly, playerMoveY_canFly, playerMoveX_canFly,
      stepVelocities_canFly]
    exact h
  simp only [phaseFootstep_player, phaseTrail_player, phaseCamera_player,
    phaseWin_player, phaseTimerTick_player, phaseFlightUnlock_id_of_canFly _ hu]
  exact hu

lemma stepCore_unlock (level : Level) (vw vh : ℚ) (inputs : Inputs) (dt : ℚ)
    (s : GameState) (h1 : s.player.canFly = false)
    (h2 : aliveCount (stepCore level vw vh inputs dt s).enemies = 0) :
    (stepCore level vw vh inputs dt s).player.canFly = true ∧
    (stepCore level vw vh inputs dt s).flightMsgTimer = max 0 (2 - dt) := by
  rw [stepCore_enemies] at h2
  rw [stepCore_decompose]
  have hany := aliveCount_eq_zero_iff.mp h2
  have hcf : (phaseEnemies level dt vw (phaseOrbs (phaseSpikes level (phaseWorldBounds level
      { s with player := playerMoveY level dt (playerMoveX level dt
          (stepVelocities inputs dt s.player)) })))).player.canFly = false := by
    simp only [phaseEnemies_canFly, phaseOrbs_player, phaseSpikes_player,
      phaseWorldBounds_canFly, playerMoveY_canFly, playerMoveX_canFly,
      stepVelocities_canFly]
    exact h1
  have hunlock := phaseFlightUnlock_fires _ hcf hany
  constructor
  · simp only [phaseFootstep_player, phaseTrail_player, phaseCamera_player,
      phaseWin_player, phaseTimerTick_player, hunlock]
  · simp only [phaseFootstep_timer, phaseTrail_timer, phaseCamera_timer,
      phaseWin_timer, hunlock]
    rw [phaseTimerTick_timer_of_pos]
    norm_num

lemma stepSimulation_restart (level : Level) (vw vh : ℚ) (inputs : Inputs)
    (dt : ℚ) (s : GameState) (h : inputs.restart = true) :
    stepSimulation level vw vh inputs dt s =
      stepCore level vw vh inputs dt (applyRestartState s) := by
  simp [stepSimulation, h, applyRestartState]

lemma stepSimulation_frozen (level : Level) (vw vh : ℚ) (inputs : Inputs)
    (dt : ℚ) (s : GameState) (h : inputs.restart = false)
    (hfz : (s.dead || s.won) = true) :
    stepSimulation level vw vh inputs dt s = s := by
  simp [stepSimulation, h, hfz]

lemma stepSimulation_live (level : Level) (vw vh : ℚ) (inputs : Inputs)
    (dt : ℚ) (s : GameState) (h : inputs.restart = false)
    (hfz : (s.dead || s.won) = false) :
    stepSimulation level vw vh inputs dt s = stepCore level vw vh inputs dt s := by
  simp [stepSimulation, h, hfz]

/-! ### C6 -/

/-- C6: flight, once unlocked, is never cleared by any simulation step; and
on any step whose surviving enemy count is zero while it started positive
(with flight still locked), the step sets canFly and starts the 2-second
flight message countdown (ticked once within the same step). -/
theorem flight_unlocks_once_and_persists :
    (∀ (level : Level) (vw vh : ℚ) (inputs : Inputs) (dt : ℚ) (s : GameState),
      s.player.canFly = true →
      (stepSimulation level vw vh inputs dt s).player.canFly = true) ∧
    (∀ (level : Level) (vw vh : ℚ) (inputs : Inputs) (dt : ℚ) (s : GameState),
      s.player.canFly = false →
      0 < aliveCount s.enemies →
      aliveCount (stepSimulation level vw vh inputs dt s).enemies = 0 →
      (stepSimulation level vw vh inputs dt s).player.canFly = true ∧
      (stepSimulation level vw vh inputs dt s).flightMsgTimer = max 0 (2 - dt)) := by
  constructor
  · intro level vw vh inputs dt s h
    rcases Bool.eq_false_or_eq_true inputs.restart with hres | hres
    · rw [stepSimulation_restart level vw vh inputs dt s hres]
      exact stepCore_canFly_of_true level vw vh inputs dt (applyRestartState s) h
    · rcases Bool.eq_false_or_eq_true (s.dead || s.won) with hfz | hfz
      · rw [stepSimulation_frozen level vw vh inputs dt s hres hfz]
        exact h
      · rw [stepSimulation_live level vw vh inputs dt s hres hfz]
        exact stepCore_canFly_of_true level vw vh inputs dt s h
  · intro level vw vh inputs dt s h hpos hzero
    rcases Bool.eq_false_or_eq_true inputs.restart with hres | hres
    · rw [stepSimulation_restart level vw vh inputs dt s hres] at hzero ⊢
      exact stepCore_unlock level vw vh inputs dt (applyRestartState s) h hzero
    · rcases Bool.eq_false_or_eq_true (s.dead || s.won) with hfz | hfz
      · rw [stepSimulation_frozen level vw vh inputs dt s hres hfz] at hzero
        omega
      · rw [stepSimulation_live level vw vh inputs dt s hres hfz] at hzero ⊢
        exact stepCore_unlock level vw vh inputs dt s h hzero

/-- Witness for C6: flight persists on a concrete step, and on a concrete
step that stomps the last enemy the unlock fires with the countdown. -/
theorem flight_unlocks_once_and_persists_witness :
    (stepSimulation lvlFloor 800 600 inputsIdle (1 / 60) sFlyW).player.canFly = true ∧
    ((stepSimulation lvlFloor 800 600 inputsIdle (1 / 60) sStompW).player.canFly = true ∧
      (stepSimulation lvlFloor 800 600 inputsIdle (1 / 60) sStompW).flightMsgTimer =
        max 0 (2 - 1 / 60)) := by
  constructor
  · exact flight_unlocks_once_and_persists.1 lvlFloor 800 600 inputsIdle (1 / 60) sFlyW rfl
  · exact flight_unlocks_once_and_persists.2 lvlFloor 800 600 inputsIdle (1 / 60) sStompW
      rfl (by with_unfolding_all decide) (by with_unfolding_all decide)

/-! ### C4 -/

lemma phaseWorldBounds_velocityY (level : Level) (s : GameState)
    (h : ¬ s.player.positionY < 0) :
    (phaseWorldBounds level s).player.velocityY = s.player.velocityY := by
  simp only [phaseWorldBounds]
  split_ifs <;> simp_all

lemma phaseFlightUnlock_velocityY (s : GameState) :
    (phaseFlightUnlock s).player.velocityY = s.player.velocityY := by
  simp only [phaseFlightUnlock]
  split_ifs <;> rfl

/-- C4 counterexample: in the at-rest jump scenario the step does not leave
velocityY at jumpBase (-640): gravity is applied after the jump impulse
within the same step. -/
theorem jump_step_velocity_counterexample :
    sRest.player.velocityX = 0 ∧ sRest.player.velocityY = 0 ∧
    sRest.player.isOnGround = true ∧ sRest.player.canFly = false ∧
    sRest.dead = false ∧ sRest.won = false ∧
    inputsJumpOnly.jump = true ∧ inputsJumpOnly.run = false ∧
    (stepSimulation lvlFloor 800 600 inputsJumpOnly (1 / 60) sRest).player.velocityY ≠ -640 := by
  with_unfolding_all decide

/-- C4 amended: for a player at rest on the ground with only the jump input
asserted (flight locked, not dead or won, no enemies to interact with, and
the jump arc unobstructed), one fixed step leaves velocityY at
jumpBase + gravity * dt = -640 + 2200 / 60 = -1810/3. -/
theorem jump_step_velocity
    (level : Level) (vw vh : ℚ) (inputs : Inputs) (s : GameState)
    (hml : inputs.moveLeft = false) (hmr : inputs.moveRight = false)
    (hj : inputs.jump = true) (hrun : inputs.run = false)
    (hrst : inputs.restart = false)
    (hvx : s.player.velocityX = 0) (hvy : s.player.velocityY = 0)
    (hg : s.player.isOnGround = true) (hcf : s.player.canFly = false)
    (hdead : s.dead = false) (hwon : s.won = false)
    (henem : s.enemies = [])
    (hX : (rectVsTiles level s.player.positionX s.player.positionY
      s.player.width s.player.height).collided = false)
    (hY : (rectVsTiles level s.player.positionX (s.player.positionY - 181 / 18)
      s.player.width s.player.height).collided = false)
    (hpy : ¬ s.player.positionY - 181 / 18 < 0) :
    (stepSimulation level vw vh inputs (1 / 60) s).player.velocityY = -1810 / 3 := by
  obtain ⟨⟨px, py, vx, vy, pw, phh, og, cf⟩, cam, dd, wn, orbs, ens, trail, fmt, fst⟩ := s
  obtain ⟨ml, mr, jmp, run, att, rst⟩ := inputs
  simp only at hml hmr hj hrun hrst hvx hvy hg hcf hdead hwon henem hX hY hpy
  subst hml hmr hj hrun hrst hvx hvy hg hcf hdead hwon henem
  rw [stepSimulation_live level vw vh ⟨false, false, true, false, att, false⟩ (1 / 60)
    ⟨⟨px, py, 0, 0, pw, phh, true, false⟩, cam, false, false, orbs, [], trail, fmt, fst⟩
    rfl rfl, stepCore_decompose]
  have hsv : stepVelocities ⟨false, false, true, false, att, false⟩ (1 / 60)
      ⟨px, py, 0, 0, pw, phh, true, false⟩ =
      ⟨px, py, 0, -1810 / 3, pw, phh, false, false⟩ := by
    simp [stepVelocities, applyJumpFlight, effectiveGravity, clamp, jsign]
    norm_num
  have hmx : playerMoveX level (1 / 60) ⟨px, py, 0, -1810 / 3, pw, phh, false, false⟩ =
      ⟨px, py, 0, -1810 / 3, pw, phh, false, false⟩ := by
    simp only [playerMoveX]
    rw [show px + 0 * (1 / 60 : ℚ) = px by ring]
    rw [if_neg (by simp [hX])]
  have hmy : playerMoveY level (1 / 60) ⟨px, py, 0, -1810 / 3, pw, phh, false, false⟩ =
      ⟨px, py - 181 / 18, 0, -1810 / 3, pw, phh, false, false⟩ := by
    simp only [playerMoveY]
    rw [show py + (-1810 / 3 : ℚ) * (1 / 60) = py - 181 / 18 by ring]
    rw [if_neg (by simp [hY])]
  simp only [hsv, hmx, hmy, phaseFootstep_player, phaseTrail_player, phaseCamera_player,
    phaseWin_player, phaseTimerTick_player, phaseFlightUnlock_velocityY]
  have hen : (phaseOrbs (phaseSpikes level (phaseWorldBounds level
      { player := ⟨px, py - 181 / 18, 0, -1810 / 3, pw, phh, false, false⟩, camera := cam,
        dead := false, won := false, orbs := orbs, enemies := [], trail := trail,
        flightMsgTimer := fmt, footstepTimer := fst }))).enemies = [] := by
    simp only [phaseOrbs_enemies, phaseSpikes_enemies, phaseWorldBounds_enemies]
  simp only [phaseEnemies, hen, List.foldl_nil]
  simp only [phaseOrbs_player, phaseSpikes_player]
  rw [phaseWorldBounds_velocityY]
  simpa using hpy

/-- Witness for the amended C4: the concrete at-rest jump scenario yields
velocityY = -1810/3 after one step. -/
theorem jump_step_velocity_witness :
    (stepSimulation lvlFloor 800 600 inputsJumpOnly (1 / 60) sRest).player.velocityY =
      -1810 / 3 :=
  jump_step_velocity lvlFloor 800 600 inputsJumpOnly sRest rfl rfl rfl rfl rfl rfl rfl rfl
    rfl rfl rfl rfl (by with_unfolding_all decide) (by with_unfolding_all decide)
    (by with_unfolding_all decide)

/-! ### C3 -/

/-- C3 counterexample: a step with per-axis displacement under the tile size
(X moves 0, Y moves 20 < 32) ends with the player rectangle in positive-area
overlap with the solid tile (1,1) of lvlCorner: in the Y resolution the
smaller overlap was on the X axis, so correctionY stayed zero and no
correction was applied (the known corner catch). -/
theorem step_end_overlap_counterexample :
    |(stepSimulation lvlCorner 800 600 inputsIdle (1 / 60) sCorner).player.positionX -
      sCorner.player.positionX| < 32 ∧
    |(stepSimulation lvlCorner 800 600 inputsIdle (1 / 60) sCorner).player.positionY -
      sCorner.player.positionY| < 32 ∧
    isSolidTile (tileNat lvlCorner 1 1) = true ∧
    0 < overlapXAt lvlCorner
      (stepSimulation lvlCorner 800 600 inputsIdle (1 / 60) sCorner).player.positionX
      (stepSimulation lvlCorner 800 600 inputsIdle (1 / 60) sCorner).player.width 1 ∧
    0 < overlapYAt lvlCorner
      (stepSimulation lvlCorner 800 600 inputsIdle (1 / 60) sCorner).player.positionY
      (stepSimulation lvlCorner 800 600 inputsIdle (1 / 60) sCorner).player.height 1 := by
  with_unfolding_all decide

lemma overlapXAt_le_width (level : Level) (x w : ℚ) (c : ℕ) :
    overlapXAt level x w c ≤ w := by
  unfold overlapXAt
  have h1 := min_le_left (x + w) ((c : ℚ) * level.tileSize + level.tileSize)
  have h2 := le_max_left x ((c : ℚ) * level.tileSize)
  linarith

/-- C3 amended: when the rectangle swept on the Y axis overlaps exactly one
solid tile and that tile's Y overlap is at most its X overlap (so the
resolver populates correctionY), the resolved player rectangle has no
positive-area overlap with any solid tile; when the smaller overlap is on
the unresolved axis the correction is not applied and overlap can persist
(the acknowledged corner catch shown by the counterexample). -/
theorem playerMoveY_resolved_no_overlap
    (level : Level) (dt : ℚ) (p : PlayerState) (r₀ c₀ : ℕ)
    (hts : level.tileSize = 32) (hw : p.width = 20) (hh : p.height = 28)
    (hrect : ∀ row ∈ level.tiles, row.length = (level.tiles.headD []).length)
    (htrig : trigger level p.positionX (p.positionY + p.velocityY * dt)
      p.width p.height r₀ c₀)
    (huniq : ∀ r' < level.tiles.length, ∀ c' < (level.tiles.headD []).length,
      trigger level p.positionX (p.positionY + p.velocityY * dt)
        p.width p.height r' c' → r' = r₀ ∧ c' = c₀)
    (hyx : overlapYAt level (p.positionY + p.velocityY * dt) p.height r₀ ≤
      overlapXAt level p.positionX p.width c₀) :
    ∀ r c : ℕ, isSolidTile (tileNat level r c) = true →
      ¬(0 < overlapXAt level (playerMoveY level dt p).positionX
          (playerMoveY level dt p).width c ∧
        0 < overlapYAt level (playerMoveY level dt p).positionY
          (playerMoveY level dt p).height r) := by
  obtain ⟨tiles, tsz⟩ := level
  obtain ⟨px, py, vx, vy, pw, phh, og, cf⟩ := p
  simp only at hts hw hh htrig huniq hyx
  subst hts hw hh
  intro r c hsolid
  rintro ⟨hoxc, hoyr⟩
  obtain ⟨hs, hox, hoy⟩ := htrig
  have hts0 : (0 : ℚ) < (Level.mk tiles 32).tileSize := by norm_num
  have hev := rectVsTiles_single (Level.mk tiles 32) px (py + vy * dt) 20 28 r₀ c₀
    hts0 hrect ⟨hs, hox, hoy⟩ huniq
  have hnlt : ¬ (overlapXAt (Level.mk tiles 32) px 20 c₀ <
      overlapYAt (Level.mk tiles 32) (py + vy * dt) 28 r₀) := not_lt.mpr hyx
  have hres : rectVsTiles (Level.mk tiles 32) px (py + vy * dt) 20 28 =
      ⟨true, 0,
        if py + vy * dt + 28 / 2 < (r₀ : ℚ) * 32 + 32 / 2
          then -overlapYAt (Level.mk tiles 32) (py + vy * dt) 28 r₀
          else overlapYAt (Level.mk tiles 32) (py + vy * dt) 28 r₀⟩ := by
    rw [hev]
    simp [collideStep, hs, hox, hoy, hnlt]
  have hsy : (if py + vy * dt + 28 / 2 < (r₀ : ℚ) * 32 + 32 / 2
      then -overlapYAt (Level.mk tiles 32) (py + vy * dt) 28 r₀
      else overlapYAt (Level.mk tiles 32) (py + vy * dt) 28 r₀) ≠ 0 := by
    split_ifs <;> intro hzero <;> linarith
  have hpm : (playerMoveY (Level.mk tiles 32) dt ⟨px, py, vx, vy, 20, 28, og, cf⟩).positionY =
      py + vy * dt +
        (if py + vy * dt + 28 / 2 < (r₀ : ℚ) * 32 + 32 / 2
          then -overlapYAt (Level.mk tiles 32) (py + vy * dt) 28 r₀
          else overlapYAt (Level.mk tiles 32) (py + vy * dt) 28 r₀) ∧
      (playerMoveY (Level.mk tiles 32) dt ⟨px, py, vx, vy, 20, 28, og, cf⟩).positionX = px ∧
      (playerMoveY (Level.mk tiles 32) dt ⟨px, py, vx, vy, 20, 28, og, cf⟩).width = 20 ∧
      (playerMoveY (Level.mk tiles 32) dt ⟨px, py, vx, vy, 20, 28, og, cf⟩).height = 28 := by
    simp [playerMoveY, hres, hsy]
  rw [hpm.2.1, hpm.2.2.1] at hoxc
  rw [hpm.1, hpm.2.2.2] at hoyr
  have hoy_def : ∀ (yy : ℚ) (rr : ℕ), overlapYAt (Level.mk tiles 32) yy 28 rr =
      min (yy + 28) ((rr : ℚ) * 32 + 32) - max yy ((rr : ℚ) * 32) := fun yy rr => rfl
  have hoxle : overlapXAt (Level.mk tiles 32) px 20 c₀ ≤ 20 :=
    overlapXAt_le_width (Level.mk tiles 32) px 20 c₀
  by_cases hdir : py + vy * dt + 28 / 2 < (r₀ : ℚ) * 32 + 32 / 2
  · -- pushed up: the resolved rectangle top lands at tileTop - 28
    rw [if_pos hdir] at hoyr
    have hb : py + vy * dt + 28 ≤ (r₀ : ℚ) * 32 + 32 := by linarith
    have hA : py + vy * dt ≤ (r₀ : ℚ) * 32 := by
      by_contra hgt
      push_neg at hgt
      have h28 : overlapYAt (Level.mk tiles 32) (py + vy * dt) 28 r₀ = 28 := by
        rw [hoy_def, min_eq_left hb, max_eq_left (le_of_lt hgt)]
        ring
      rw [h28] at hyx
      linarith
    have hoyA : overlapYAt (Level.mk tiles 32) (py + vy * dt) 28 r₀ =
        py + vy * dt + 28 - (r₀ : ℚ) * 32 := by
      rw [hoy_def, min_eq_left hb, max_eq_right hA]
    rw [hoyA] at hoyr hyx hoy
    rw [show py + vy * dt + -(py + vy * dt + 28 - (r₀ : ℚ) * 32) = (r₀ : ℚ) * 32 - 28
      by ring] at hoyr
    rw [hoy_def] at hoyr
    have hm1 := le_max_left ((r₀ : ℚ) * 32 - 28) ((r : ℚ) * 32)
    have hm2 := le_max_right ((r₀ : ℚ) * 32 - 28) ((r : ℚ) * 32)
    have hm3 := min_le_left ((r₀ : ℚ) * 32 - 28 + 28) ((r : ℚ) * 32 + 32)
    have hm4 := min_le_right ((r₀ : ℚ) * 32 - 28 + 28) ((r : ℚ) * 32 + 32)
    have hrlt : r < r₀ := by
      have hq : (r : ℚ) < (r₀ : ℚ) := by linarith
      exact_mod_cast hq
    have hr2 : r₀ < r + 2 := by
      have hq : (r₀ : ℚ) < ((r + 2 : ℕ) : ℚ) := by push_cast; linarith
      exact_mod_cast hq
    have hcast : (r₀ : ℚ) = (r : ℚ) + 1 := by
      have hn : r₀ = r + 1 := by omega
      rw [hn]; push_cast; ring
    have holdoy : 0 < overlapYAt (Level.mk tiles 32) (py + vy * dt) 28 r := by
      rw [hoy_def]
      rw [min_eq_right (by linarith), max_eq_left (by linarith)]
      linarith
    have ht2 : trigger (Level.mk tiles 32) px (py + vy * dt) 20 28 r c :=
      ⟨hsolid, hoxc, holdoy⟩
    obtain ⟨hre, -⟩ := huniq r (trigger_row_lt ht2) c (trigger_col_lt hrect ht2) ht2
    omega
  · -- pushed down: the resolved rectangle top lands at tileBottom
    rw [if_neg hdir] at hoyr
    push_neg at hdir
    have hA : (r₀ : ℚ) * 32 ≤ py + vy * dt := by linarith
    have hbB : (r₀ : ℚ) * 32 + 32 < py + vy * dt + 28 := by
      by_contra hcon
      push_neg at hcon
      have h28 : overlapYAt (Level.mk tiles 32) (py + vy * dt) 28 r₀ = 28 := by
        rw [hoy_def, min_eq_left hcon, max_eq_left hA]
        ring
      rw [h28] at hyx
      linarith
    have hoyB : overlapYAt (Level.mk tiles 32) (py + vy * dt) 28 r₀ =
        (r₀ : ℚ) * 32 + 32 - (py + vy * dt) := by
      rw [hoy_def, min_eq_right (le_of_lt hbB), max_eq_left hA]
    rw [hoyB] at hoyr hyx hoy
    rw [show py + vy * dt + ((r₀ : ℚ) * 32 + 32 - (py + vy * dt)) = (r₀ : ℚ) * 32 + 32
      by ring] at hoyr
    rw [hoy_def] at hoyr
    have hm1 := le_max_left ((r₀ : ℚ) * 32 + 32) ((r : ℚ) * 32)
    have hm2 := le_max_right ((r₀ : ℚ) * 32 + 32) ((r : ℚ) * 32)
    have hm3 := min_le_left ((r₀ : ℚ) * 32 + 32 + 28) ((r : ℚ) * 32 + 32)
    have hm4 := min_le_right ((r₀ : ℚ) * 32 + 32 + 28) ((r : ℚ) * 32 + 32)
    have hrgt : r₀ < r := by
      have hq : (r₀ : ℚ) < (r : ℚ) := by linarith
      exact_mod_cast hq
    have hr2 : r < r₀ + 2 := by
      have hq : (r : ℚ) < ((r₀ + 2 : ℕ) : ℚ) := by push_cast; linarith
      exact_mod_cast hq
    have hcast : (r : ℚ) = (r₀ : ℚ) + 1 := by
      have hn : r = r₀ + 1 := by omega
      rw [hn]; push_cast; ring
    have holdoy : 0 < overlapYAt (Level.mk tiles 32) (py + vy * dt) 28 r := by
      rw [hoy_def]
      rw [min_eq_left (by linarith), max_eq_right (by linarith)]
      linarith
    have ht2 : trigger (Level.mk tiles 32) px (py + vy * dt) 20 28 r c :=
      ⟨hsolid, hoxc, holdoy⟩
    obtain ⟨hre, -⟩ := huniq r (trigger_row_lt ht2) c (trigger_col_lt hrect ht2) ht2
    omega

/-- Witness for the amended C3: the falling player is resolved flush on top
of the tile, with no remaining overlap. -/
theorem playerMoveY_resolved_no_overlap_witness :
    trigger lvlLedge pLedge.positionX (pLedge.positionY + pLedge.velocityY * (1 / 60))
      pLedge.width pLedge.height 1 0 ∧
    overlapYAt lvlLedge (pLedge.positionY + pLedge.velocityY * (1 / 60)) pLedge.height 1 ≤
      overlapXAt lvlLedge pLedge.positionX pLedge.width 0 ∧
    ¬(0 < overlapXAt lvlLedge (playerMoveY lvlLedge (1 / 60) pLedge).positionX
        (playerMoveY lvlLedge (1 / 60) pLedge).width 0 ∧
      0 < overlapYAt lvlLedge (playerMoveY lvlLedge (1 / 60) pLedge).positionY
        (playerMoveY lvlLedge (1 / 60) pLedge).height 1) := by
  refine ⟨by with_unfolding_all decide, by with_unfolding_all decide, ?_⟩
  exact playerMoveY_resolved_no_overlap lvlLedge (1 / 60) pLedge 1 0 rfl rfl rfl
    (by decide) (by with_unfolding_all decide) (by with_unfolding_all decide)
    (by with_unfolding_all decide) 1 0 (by decide)

end HyperWizard
